import Mathlib

/-!
Verification of the jema2mqtt bridge core (src/index.ts) via a shallow
embedding in Lean.  Pure functions of the source (topic naming, discovery
payload construction) are embedded as Lean functions; the event-driven parts
(command handling, monitor-change listener, startup, shutdown, signal
handling) are embedded as functions from their inputs and from explicit
models of the fallible external calls (MQTT publish, hardware monitor read,
control pulse) to the list of observable operations they perform, in
program order.
-/

namespace Jema2Mqtt

/-- Entity, from the `Entity` type of the source (src/index.ts lines 12-18).
The TypeScript `domain` field is annotated with the union type
`"lock" | "switch" | "cover"`, but the value actually comes from an
unvalidated `JSON.parse(...) as Config` cast (lines 49-51), so at runtime it
can be any string; we therefore embed it as `String`. -/
structure Entity where
  id : String
  name : String
  domain : String
  controlGpio : Nat
  monitorGpio : Nat
deriving DecidableEq, Repr

/-- The three topic categories, from the `TopicType` const object
(src/index.ts lines 22-27). -/
inductive TopicType where
  | COMMAND
  | STATE
  | AVAILABILITY
deriving DecidableEq, Repr

/-- The string value each `TopicType` member carries in the source. -/
def TopicType.toStr : TopicType → String
  | .COMMAND => "set"
  | .STATE => "state"
  | .AVAILABILITY => "availability"

/-- `getTopic` (src/index.ts lines 35-37):
`` `jema2mqtt/${device.id}/${type}` ``. -/
def getTopic (device : Entity) (type : TopicType) : String :=
  "jema2mqtt/" ++ device.id ++ "/" ++ type.toStr

/-- Splitting at the last separator: if the suffixes `a` and `b` after a
separator are separator-free, an equality of `u ++ sep :: a` and
`v ++ sep :: b` forces both components to agree. -/
theorem append_sep_eq (sep : Char) :
    ∀ (a b u v : List Char), sep ∉ a → sep ∉ b →
      a ++ sep :: u = b ++ sep :: v → a = b ∧ u = v := by
  intro a
  induction a with
  | nil =>
    intro b u v _ hb h
    cases b with
    | nil => simpa using h
    | cons y ys =>
      exfalso
      simp only [List.nil_append, List.cons_append, List.cons.injEq] at h
      exact hb (h.1 ▸ List.mem_cons_self y ys)
  | cons x xs ih =>
    intro b u v ha hb h
    cases b with
    | nil =>
      exfalso
      simp only [List.cons_append, List.nil_append, List.cons.injEq] at h
      exact ha (h.1 ▸ List.mem_cons_self x xs)
    | cons y ys =>
      simp only [List.cons_append, List.cons.injEq] at h
      have ha' : sep ∉ xs := fun hm => ha (List.mem_cons_of_mem x hm)
      have hb' : sep ∉ ys := fun hm => hb (List.mem_cons_of_mem y hm)
      obtain ⟨h1, h2⟩ := ih ys u v ha' hb' h.2
      exact ⟨by rw [h.1, h1], h2⟩

/-- The character data of a computed topic, exposing the final `/`-separated
category suffix. -/
theorem getTopic_data (e : Entity) (t : TopicType) :
    (getTopic e t).data =
      "jema2mqtt/".data ++ (e.id.data ++ '/' :: (TopicType.toStr t).data) := by
  simp [getTopic, String.data_append]

/-- No topic category string contains the separator `/`. -/
theorem toStr_sep_free (t : TopicType) : '/' ∉ (TopicType.toStr t).data := by
  cases t <;> decide

/-- Claim C4: `getTopic` is a pure total Lean function (hence deterministic),
and topics never collide across entities with distinct ids, for any pair of
message categories: the category suffix after the last `/` contains no `/`,
so equal topics force equal category strings and equal ids. -/
theorem getTopic_collision_free (e1 e2 : Entity) (t1 t2 : TopicType)
    (h : e1.id ≠ e2.id) : getTopic e1 t1 ≠ getTopic e2 t2 := by
  intro heq
  apply h
  have hdata := congrArg String.data heq
  rw [getTopic_data, getTopic_data] at hdata
  have hdata' : e1.id.data ++ '/' :: (TopicType.toStr t1).data =
      e2.id.data ++ '/' :: (TopicType.toStr t2).data :=
    List.append_cancel_left hdata
  have hrev := congrArg List.reverse hdata'
  simp only [List.reverse_append, List.reverse_cons, List.append_assoc,
    List.singleton_append] at hrev
  have hsep := append_sep_eq '/' (TopicType.toStr t1).data.reverse
    (TopicType.toStr t2).data.reverse e1.id.data.reverse e2.id.data.reverse
    (by simpa using toStr_sep_free t1) (by simpa using toStr_sep_free t2) hrev
  have hid : e1.id.data = e2.id.data := by
    have := congrArg List.reverse hsep.2
    simpa using this
  exact String.ext hid

/-- Witness for C4 at concrete entities with distinct ids. -/
theorem getTopic_collision_free_witness :
    getTopic ⟨"door", "Door", "lock", 5, 6⟩ TopicType.COMMAND ≠
      getTopic ⟨"light", "Light", "switch", 7, 8⟩ TopicType.STATE :=
  getTopic_collision_free ⟨"door", "Door", "lock", 5, 6⟩
    ⟨"light", "Light", "switch", 7, 8⟩ TopicType.COMMAND TopicType.STATE
    (by decide)

/-- A hardware binding, from `requestJemaAccess(controlGpio, monitorGpio)`
(src/index.ts lines 108-110): the acquired binding reads `monitorGpio` and
pulses `controlGpio`. -/
structure Jema where
  controlGpio : Nat
  monitorGpio : Nat
deriving DecidableEq, Repr

/-- Acquisition of a hardware binding for one entity (src/index.ts line 109). -/
def requestJemaAccess (controlGpio monitorGpio : Nat) : Jema :=
  ⟨controlGpio, monitorGpio⟩

/-- The `jemas` map (src/index.ts lines 106-113): built from the same
entity list, keyed by `entity.id`. -/
def jemas (entities : List Entity) : List (String × Jema) :=
  entities.map (fun e => (e.id, requestJemaAccess e.controlGpio e.monitorGpio))

/-- JavaScript `Map.get` semantics on an association list built with
`new Map(pairs)`: a later pair with the same key overwrites an earlier one,
so lookup scans the reversed list. -/
def mapGet (m : List (String × Jema)) (k : String) : Option Jema :=
  m.reverse.lookup k

/-- The observable outcome of one invocation of the `handleMessage` callback
(src/index.ts lines 134-151): which monitor GPIOs were read
(`jema.getMonitor()` calls), which control GPIOs were pulsed
(`jema.sendControl()` calls), which log records were written (the handler
body, lines 134-148, contains no logger call and no try/catch), and the
error value of the rejected promise, if any (the call site on line 150
discards the promise with `void`, so a rejection is unhandled). -/
structure HandlerResult where
  reads : List Nat
  pulses : List Nat
  logs : List String
  rejection : Option String
deriving DecidableEq, Repr

/-- `handleMessage` (src/index.ts lines 134-148), with the two fallible
hardware calls modelled by `monitor` (per monitor GPIO) and `control` (per
control GPIO): find the entity whose command topic equals `topic` (return
silently if none), look the binding up via the non-null assertion
`jemas.get(entity.id)!`, read the monitor, and pulse exactly when the
commanded token disagrees with the monitored boolean. -/
def handleMessage (entities : List Entity) (monitor : Nat → Except String Bool)
    (control : Nat → Except String Unit) (topic message : String) :
    HandlerResult :=
  match entities.find? (fun e => getTopic e TopicType.COMMAND == topic) with
  | none => ⟨[], [], [], none⟩
  | some entity =>
    match mapGet (jemas entities) entity.id with
    | none => ⟨[], [], [], some "TypeError: jema is undefined"⟩
    | some jema =>
      match monitor jema.monitorGpio with
      | .error msg => ⟨[jema.monitorGpio], [], [], some msg⟩
      | .ok monitorVal =>
        if (message == "ACTIVE" && !monitorVal)
            || (message == "INACTIVE" && monitorVal) then
          match control jema.controlGpio with
          | .error msg =>
            ⟨[jema.monitorGpio], [jema.controlGpio], [], some msg⟩
          | .ok _ => ⟨[jema.monitorGpio], [jema.controlGpio], [], none⟩
        else ⟨[jema.monitorGpio], [], [], none⟩

/-- Claim C1: on a command for a configured entity, with the freshly read
monitored boolean `b`, a mismatching command (`ACTIVE` with `b = false`, or
`INACTIVE` with `b = true`) issues exactly one control pulse, and a matching
command issues none. -/
theorem handleMessage_pulse_iff_mismatch (entities : List Entity)
    (monitor : Nat → Except String Bool) (control : Nat → Except String Unit)
    (topic message : String) (e : Entity) (j : Jema) (b : Bool)
    (hfind : entities.find? (fun e' => getTopic e' TopicType.COMMAND == topic)
      = some e)
    (hmap : mapGet (jemas entities) e.id = some j)
    (hmon : monitor j.monitorGpio = Except.ok b) :
    (((message = "ACTIVE" ∧ b = false) ∨ (message = "INACTIVE" ∧ b = true)) →
      (handleMessage entities monitor control topic message).pulses
        = [j.controlGpio]) ∧
    (((message = "ACTIVE" ∧ b = true) ∨ (message = "INACTIVE" ∧ b = false)) →
      (handleMessage entities monitor control topic message).pulses = []) := by
  unfold handleMessage
  simp only [hfind, hmap, hmon]
  constructor
  · rintro (⟨hm, hb⟩ | ⟨hm, hb⟩) <;> subst hm <;> subst hb <;>
      simp <;> cases control j.controlGpio <;> rfl
  · rintro (⟨hm, hb⟩ | ⟨hm, hb⟩) <;> subst hm <;> subst hb <;> simp

/-- Witness for C1: entity `door`, monitor reads `false`, command `ACTIVE`
pulses control GPIO 5 exactly once. -/
theorem handleMessage_pulse_iff_mismatch_witness :
    (handleMessage [⟨"door", "Door", "lock", 5, 6⟩]
      (fun _ => Except.ok false) (fun _ => Except.ok ())
      "jema2mqtt/door/set" "ACTIVE").pulses = [5] :=
  (handleMessage_pulse_iff_mismatch [⟨"door", "Door", "lock", 5, 6⟩]
    (fun _ => Except.ok false) (fun _ => Except.ok ())
    "jema2mqtt/door/set" "ACTIVE" ⟨"door", "Door", "lock", 5, 6⟩ ⟨5, 6⟩ false
    (by rfl) (by rfl) (by rfl)).1 (Or.inl ⟨rfl, rfl⟩)

/-- Claim C2: a command message that is neither `ACTIVE` nor `INACTIVE` is
silently dropped — no pulse is issued and no error is raised. -/
theorem handleMessage_unknown_payload (entities : List Entity)
    (monitor : Nat → Except String Bool) (control : Nat → Except String Unit)
    (topic message : String) (e : Entity) (j : Jema) (b : Bool)
    (hfind : entities.find? (fun e' => getTopic e' TopicType.COMMAND == topic)
      = some e)
    (hmap : mapGet (jemas entities) e.id = some j)
    (hmon : monitor j.monitorGpio = Except.ok b)
    (hmsg1 : message ≠ "ACTIVE") (hmsg2 : message ≠ "INACTIVE") :
    (handleMessage entities monitor control topic message).pulses = [] ∧
    (handleMessage entities monitor control topic message).rejection
      = none := by
  unfold handleMessage
  simp only [hfind, hmap, hmon]
  have h1 : (message == "ACTIVE") = false := by
    simpa using hmsg1
  have h2 : (message == "INACTIVE") = false := by
    simpa using hmsg2
  simp [h1, h2]

/-- Witness for C2: payload `open` on a configured command topic produces no
pulse and no rejection. -/
theorem handleMessage_unknown_payload_witness :
    (handleMessage [⟨"door", "Door", "lock", 5, 6⟩]
      (fun _ => Except.ok false) (fun _ => Except.ok ())
      "jema2mqtt/door/set" "open").pulses = [] ∧
    (handleMessage [⟨"door", "Door", "lock", 5, 6⟩]
      (fun _ => Except.ok false) (fun _ => Except.ok ())
      "jema2mqtt/door/set" "open").rejection = none :=
  handleMessage_unknown_payload [⟨"door", "Door", "lock", 5, 6⟩]
    (fun _ => Except.ok false) (fun _ => Except.ok ())
    "jema2mqtt/door/set" "open" ⟨"door", "Door", "lock", 5, 6⟩ ⟨5, 6⟩ false
    (by rfl) (by rfl) (by rfl) (by decide) (by decide)

/-- One MQTT publish operation: topic, payload, and the retained flag. -/
structure Publish where
  topic : String
  payload : String
  retain : Bool
deriving DecidableEq, Repr

/-- `publishState` (src/index.ts lines 155-160): publish the canonical token
for a monitored boolean to the entity's state topic with `retain: true`. -/
def publishState (entity : Entity) (value : Bool) : Publish :=
  ⟨getTopic entity TopicType.STATE,
    if value then "ACTIVE" else "INACTIVE", true⟩

/-- The monitor-change listener registered with
`jema.setMonitorListener((value) => void publishState(value))`
(src/index.ts line 163): the publishes performed for one notification. -/
def monitorListener (entity : Entity) (value : Bool) : List Publish :=
  [publishState entity value]

/-- Claim C3: every hardware monitor-change notification with boolean `v`
results in exactly one publish, to the entity's state topic, retained,
carrying `ACTIVE` for `true` and `INACTIVE` for `false`, for every entity
(the listener does not consult the domain). -/
theorem monitorListener_single_retained_publish (entity : Entity)
    (value : Bool) :
    monitorListener entity value =
      [⟨getTopic entity TopicType.STATE,
        if value then "ACTIVE" else "INACTIVE", true⟩] ∧
    (monitorListener entity value).length = 1 := by
  exact ⟨rfl, rfl⟩

/-- Static device metadata of a discovery message (src/index.ts
lines 63-68). -/
structure DeviceInfo where
  identifiers : List String
  name : String
  model : String
  manufacturer : String
deriving DecidableEq, Repr

/-- Static origin metadata of a discovery message (src/index.ts
lines 69-73). -/
structure OriginInfo where
  name : String
  sw_version : String
  support_url : String
deriving DecidableEq, Repr

/-- The `baseMessage` part of a discovery message (src/index.ts
lines 54-74). -/
structure BaseMessage where
  unique_id : String
  name : String
  command_topic : String
  state_topic : String
  availability_topic : String
  optimistic : Bool
  qos : Nat
  retain : Bool
  device : DeviceInfo
  origin : OriginInfo
deriving DecidableEq, Repr

/-- The domain-specific fields spread onto the base message (src/index.ts
lines 77-101): one shape per recognised domain. -/
inductive DomainPayload where
  | lock (payload_lock payload_unlock state_locked state_unlocked : String)
  | switch (payload_on payload_off state_on state_off : String)
  | cover (payload_close payload_open state_closed state_open : String)
deriving DecidableEq, Repr

/-- The `baseMessage` value built inside `getDiscoveryMessage`
(src/index.ts lines 54-74). -/
def baseMessage (deviceId : String) (qos : Nat) (entity : Entity) :
    BaseMessage :=
  ⟨"jema2mqtt_" ++ deviceId ++ "_" ++ entity.id,
    entity.name,
    getTopic entity TopicType.COMMAND,
    getTopic entity TopicType.STATE,
    getTopic entity TopicType.AVAILABILITY,
    false, qos, true,
    ⟨["jema2mqtt_" ++ deviceId], "jema2mqtt." ++ deviceId,
      "jema2mqtt", "nana4rider"⟩,
    ⟨"jema2mqtt", "1.0.0", "https://github.com/nana4rider/jema2mqtt"⟩⟩

/-- `getDiscoveryMessage` (src/index.ts lines 53-104): builds the base
message, dispatches on `entity.domain`, and throws
`` `unknown domain: ...` `` for any other domain value. -/
def getDiscoveryMessage (deviceId : String) (qos : Nat) (entity : Entity) :
    Except String (BaseMessage × DomainPayload) :=
  let baseMessage := baseMessage deviceId qos entity
  if entity.domain = "lock" then
    .ok (baseMessage, .lock "ACTIVE" "INACTIVE" "ACTIVE" "INACTIVE")
  else if entity.domain = "switch" then
    .ok (baseMessage, .switch "ACTIVE" "INACTIVE" "ACTIVE" "INACTIVE")
  else if entity.domain = "cover" then
    .ok (baseMessage, .cover "ACTIVE" "INACTIVE" "ACTIVE" "INACTIVE")
  else
    .error ("unknown domain: " ++ entity.domain)

/-- Claim C5: the discovery payload carries `payload_lock=ACTIVE` /
`payload_unlock=INACTIVE` for locks, `payload_on=ACTIVE` /
`payload_off=INACTIVE` for switches, and `payload_close=ACTIVE` /
`payload_open=INACTIVE` for covers. -/
theorem getDiscoveryMessage_domain_tokens (deviceId : String) (qos : Nat)
    (entity : Entity) :
    (entity.domain = "lock" → ∃ base,
      getDiscoveryMessage deviceId qos entity =
        .ok (base, .lock "ACTIVE" "INACTIVE" "ACTIVE" "INACTIVE")) ∧
    (entity.domain = "switch" → ∃ base,
      getDiscoveryMessage deviceId qos entity =
        .ok (base, .switch "ACTIVE" "INACTIVE" "ACTIVE" "INACTIVE")) ∧
    (entity.domain = "cover" → ∃ base,
      getDiscoveryMessage deviceId qos entity =
        .ok (base, .cover "ACTIVE" "INACTIVE" "ACTIVE" "INACTIVE")) := by
  refine ⟨fun h => ⟨baseMessage deviceId qos entity, ?_⟩,
    fun h => ⟨baseMessage deviceId qos entity, ?_⟩,
    fun h => ⟨baseMessage deviceId qos entity, ?_⟩⟩ <;>
    simp [getDiscoveryMessage, h]

/-- Witness for C5 at a concrete lock entity. -/
theorem getDiscoveryMessage_domain_tokens_witness :
    ∃ base, getDiscoveryMessage "dev" 1 ⟨"door", "Door", "lock", 5, 6⟩ =
      .ok (base,
        DomainPayload.lock "ACTIVE" "INACTIVE" "ACTIVE" "INACTIVE") :=
  (getDiscoveryMessage_domain_tokens "dev" 1
    ⟨"door", "Door", "lock", 5, 6⟩).1 rfl

/-- Association-list lookup succeeds for every key present in the list. -/
theorem lookup_isSome_of_mem_keys (k : String) :
    ∀ l : List (String × Jema), (∃ p ∈ l, p.1 = k) →
      (l.lookup k).isSome = true := by
  intro l
  induction l with
  | nil => rintro ⟨p, hp, _⟩; exact absurd hp (List.not_mem_nil p)
  | cons q rest ih =>
    rintro ⟨p, hp, hk⟩
    cases hq : (k == q.1) with
    | true => rw [List.lookup, hq]; rfl
    | false =>
      rw [List.lookup, hq]
      apply ih
      rcases List.mem_cons.mp hp with hpq | hprest
      · exfalso
        have hT : (k == q.1) = true := by
          subst hpq; simp [hk.symm]
        rw [hq] at hT
        exact Bool.false_ne_true hT
      · exact ⟨p, hprest, hk⟩

/-- Claim C10: a broker message whose topic matches no configured entity's
command topic is handled with no hardware read, no pulse, no log, and no
error; and for every configured entity, the `jemas.get(entity.id)!`
non-null assertion is safe because the map is built from the same entity
list. -/
theorem handleMessage_routing_safe (entities : List Entity)
    (monitor : Nat → Except String Bool) (control : Nat → Except String Unit)
    (topic message : String) :
    ((entities.find? (fun e => getTopic e TopicType.COMMAND == topic) = none
        → handleMessage entities monitor control topic message
          = ⟨[], [], [], none⟩)) ∧
    (∀ e, e ∈ entities → (mapGet (jemas entities) e.id).isSome = true) := by
  constructor
  · intro hfind
    unfold handleMessage
    rw [hfind]
  · intro e he
    apply lookup_isSome_of_mem_keys
    refine ⟨(e.id, requestJemaAccess e.controlGpio e.monitorGpio), ?_, rfl⟩
    rw [jemas, List.mem_reverse]
    exact List.mem_map_of_mem _ he

/-- Witness for C10: a non-matching topic is a complete no-op, and the map
lookup for the configured entity succeeds. -/
theorem handleMessage_routing_safe_witness :
    handleMessage [⟨"door", "Door", "lock", 5, 6⟩]
      (fun _ => Except.ok false) (fun _ => Except.ok ())
      "jema2mqtt/other/set" "ACTIVE" = ⟨[], [], [], none⟩ ∧
    (mapGet (jemas [⟨"door", "Door", "lock", 5, 6⟩]) "door").isSome
      = true := by
  have h := handleMessage_routing_safe [⟨"door", "Door", "lock", 5, 6⟩]
    (fun _ => Except.ok false) (fun _ => Except.ok ())
    "jema2mqtt/other/set" "ACTIVE"
  exact ⟨h.1 (by rfl),
    h.2 ⟨"door", "Door", "lock", 5, 6⟩ (List.mem_singleton.mpr rfl)⟩

/-- Counterexample to claim C9 as stated: entity `door`, command `ACTIVE`
on its command topic, monitor read fails with `EIO`.  The claim says the
failure "is logged" and "no error is dropped without a log record", but the
handler (src/index.ts lines 134-151) contains no try/catch and no logger
call, and the call site discards the promise with `void`: the rejection
carries the error while the log list is empty, so the error is dropped
without any log record. -/
theorem handleMessage_failure_unlogged_cex :
    (handleMessage [⟨"door", "Door", "lock", 5, 6⟩]
      (fun _ => Except.error "EIO") (fun _ => Except.ok ())
      "jema2mqtt/door/set" "ACTIVE").rejection = some "EIO" ∧
    (handleMessage [⟨"door", "Door", "lock", 5, 6⟩]
      (fun _ => Except.error "EIO") (fun _ => Except.ok ())
      "jema2mqtt/door/set" "ACTIVE").logs = [] ∧
    (handleMessage [⟨"door", "Door", "lock", 5, 6⟩]
      (fun _ => Except.error "EIO") (fun _ => Except.ok ())
      "jema2mqtt/door/set" "ACTIVE").pulses = [] := by
  exact ⟨rfl, rfl, rfl⟩

/-- Claim C9 as amended: a failed monitor read while handling one entity's
command drops the command with no pulse, produces no log record, and
surfaces only as the handler's unhandled rejection; a failed control pulse
likewise surfaces as an unlogged rejection after the single pulse attempt;
and the handling of a command depends only on that entity's own hardware
lines, so failures on other entities' lines cannot affect it. -/
theorem handleMessage_failure_amended (entities : List Entity)
    (monitor : Nat → Except String Bool) (control : Nat → Except String Unit)
    (topic message : String) (e : Entity) (j : Jema)
    (hfind : entities.find? (fun e' => getTopic e' TopicType.COMMAND == topic)
      = some e)
    (hmap : mapGet (jemas entities) e.id = some j) :
    (∀ msg, monitor j.monitorGpio = Except.error msg →
      handleMessage entities monitor control topic message
        = ⟨[j.monitorGpio], [], [], some msg⟩) ∧
    (∀ b msg, monitor j.monitorGpio = Except.ok b →
      ((message = "ACTIVE" ∧ b = false) ∨ (message = "INACTIVE" ∧ b = true))
        → control j.controlGpio = Except.error msg →
      handleMessage entities monitor control topic message
        = ⟨[j.monitorGpio], [j.controlGpio], [], some msg⟩) ∧
    (∀ (monitor' : Nat → Except String Bool)
        (control' : Nat → Except String Unit),
      monitor' j.monitorGpio = monitor j.monitorGpio →
      control' j.controlGpio = control j.controlGpio →
      handleMessage entities monitor' control' topic message
        = handleMessage entities monitor control topic message) := by
  refine ⟨?_, ?_, ?_⟩
  · intro msg hmon
    unfold handleMessage
    simp only [hfind, hmap, hmon]
  · intro b msg hmon hmatch hctl
    unfold handleMessage
    simp only [hfind, hmap, hmon]
    rcases hmatch with ⟨hm, hb⟩ | ⟨hm, hb⟩ <;> subst hm <;> subst hb <;>
      simp [hctl]
  · intro monitor' control' hmon hctl
    unfold handleMessage
    simp only [hfind, hmap, hmon, hctl]

/-- Witness for the amended C9 at a concrete failing monitor read. -/
theorem handleMessage_failure_amended_witness :
    handleMessage [⟨"door", "Door", "lock", 5, 6⟩]
      (fun _ => Except.error "EBUSY") (fun _ => Except.ok ())
      "jema2mqtt/door/set" "INACTIVE" = ⟨[6], [], [], some "EBUSY"⟩ :=
  (handleMessage_failure_amended [⟨"door", "Door", "lock", 5, 6⟩]
    (fun _ => Except.error "EBUSY") (fun _ => Except.ok ())
    "jema2mqtt/door/set" "INACTIVE" ⟨"door", "Door", "lock", 5, 6⟩ ⟨5, 6⟩
    (by rfl) (by rfl)).1 "EBUSY" (by rfl)

/-- Observable startup operations of `main` (src/index.ts lines 39-205), in
program order.  `hwAcquire` is one `requestJemaAccess` call (line 109),
`connect` is `mqtt.connectAsync` (line 115), `subscribeTopics` is
`client.subscribeAsync` (line 125), `publish` is one `client.publishAsync`,
`publishDiscovery` is the discovery publish (lines 168-172), and
`timerStart` is the `setInterval` heartbeat start (line 184). -/
inductive StartupEvent where
  | hwAcquire (controlGpio monitorGpio : Nat)
  | connect
  | subscribeTopics (topics : List String)
  | publish (topic payload : String) (retain : Bool)
  | publishDiscovery (topic : String)
  | timerStart
deriving DecidableEq, Repr

/-- Per-entity initialisation (src/index.ts lines 154-173): publish the
initial monitored state (retained), then build the discovery message —
which throws for an unknown domain — and publish it (retained).  Returns
the publishes performed and the error, if any. -/
def initEntity (deviceId haDiscovery : String) (qos : Nat)
    (monitor : Nat → Bool) (entity : Entity) :
    List StartupEvent × Option String :=
  let stateEv := StartupEvent.publish (getTopic entity TopicType.STATE)
    (if monitor entity.monitorGpio then "ACTIVE" else "INACTIVE") true
  match getDiscoveryMessage deviceId qos entity with
  | .error msg => ([stateEv], some msg)
  | .ok dm =>
    ([stateEv, StartupEvent.publishDiscovery
      (haDiscovery ++ "/" ++ entity.domain ++ "/" ++ dm.1.unique_id
        ++ "/config")], none)

/-- Initialisation of all entities (the `Promise.all` of src/index.ts
lines 153-174), sequentialised in list order; the first error aborts the
whole phase, as the rejected `Promise.all` rejects `main`. -/
def initEntities (deviceId haDiscovery : String) (qos : Nat)
    (monitor : Nat → Bool) : List Entity → List StartupEvent × Option String
  | [] => ([], none)
  | e :: rest =>
    let r := initEntity deviceId haDiscovery qos monitor e
    match r.2 with
    | some msg => (r.1, some msg)
    | none =>
      let r2 := initEntities deviceId haDiscovery qos monitor rest
      (r.1 ++ r2.1, r2.2)

/-- The startup sequence of `main` (src/index.ts lines 39-205): acquire all
hardware bindings, connect to the broker, subscribe to all command topics,
initialise every entity (initial state publish + discovery publish), then
start the heartbeat timer and publish `online` to every availability topic.
The returned event list holds the operations performed before the error, if
any, surfaced; an error propagates out of `main` to the top-level catch
(lines 207-212), which logs it and exits the process with code 1. -/
def startup (deviceId haDiscovery : String) (qos : Nat)
    (monitor : Nat → Bool) (entities : List Entity) :
    List StartupEvent × Option String :=
  let acq := entities.map
    (fun e => StartupEvent.hwAcquire e.controlGpio e.monitorGpio)
  let sub := StartupEvent.subscribeTopics
    (entities.map (fun e => getTopic e TopicType.COMMAND))
  let ini := initEntities deviceId haDiscovery qos monitor entities
  match ini.2 with
  | some msg =>
    (acq ++ [StartupEvent.connect, sub] ++ ini.1, some msg)
  | none =>
    (acq ++ [StartupEvent.connect, sub] ++ ini.1
      ++ [StartupEvent.timerStart]
      ++ entities.map (fun e =>
          StartupEvent.publish (getTopic e TopicType.AVAILABILITY)
            "online" false), none)

/-- A domain value is recognised when it is one of the three handled by
`getDiscoveryMessage`. -/
def knownDomain (d : String) : Prop :=
  d = "lock" ∨ d = "switch" ∨ d = "cover"

instance (d : String) : Decidable (knownDomain d) := by
  unfold knownDomain
  infer_instance

/-- An unknown domain makes `getDiscoveryMessage` fail. -/
theorem getDiscoveryMessage_error_of_unknown (deviceId : String) (qos : Nat)
    (entity : Entity) (h : ¬ knownDomain entity.domain) :
    getDiscoveryMessage deviceId qos entity
      = .error ("unknown domain: " ++ entity.domain) := by
  unfold getDiscoveryMessage
  rw [knownDomain] at h
  push_neg at h
  simp [h.1, h.2.1, h.2.2]

/-- `initEntities` reports an error whenever some entity's domain is
unknown. -/
theorem initEntities_error_of_unknown (deviceId haDiscovery : String)
    (qos : Nat) (monitor : Nat → Bool) :
    ∀ entities : List Entity,
      (∃ e ∈ entities, ¬ knownDomain e.domain) →
      (initEntities deviceId haDiscovery qos monitor entities).2.isSome
        = true := by
  intro entities
  induction entities with
  | nil => rintro ⟨e, he, _⟩; exact absurd he (List.not_mem_nil e)
  | cons f rest ih =>
    rintro ⟨e, he, hbad⟩
    rw [initEntities]
    rcases List.mem_cons.mp he with hef | herest
    · subst hef
      simp [initEntity, getDiscoveryMessage_error_of_unknown _ _ _ hbad]
    · cases hr : (initEntity deviceId haDiscovery qos monitor f).2 with
      | some msg => simp [hr]
      | none => simpa [hr] using ih ⟨e, herest, hbad⟩

/-- Counterexample to claim C6 as stated: one configured entity with the
unknown domain `fan`.  Startup does fail, but the `connect` event is in the
trace of operations performed before the error surfaced: `getDiscoveryMessage`
is only called during per-entity initialisation (src/index.ts line 167),
after `mqtt.connectAsync` (line 115), so the fatal error is NOT surfaced
before the network connection to the broker is established. -/
theorem startup_unknown_domain_cex :
    (startup "dev" "homeassistant" 1 (fun _ => false)
      [⟨"fan1", "Fan", "fan", 7, 8⟩]).2.isSome = true ∧
    StartupEvent.connect ∈
      (startup "dev" "homeassistant" 1 (fun _ => false)
        [⟨"fan1", "Fan", "fan", 7, 8⟩]).1 := by
  exact ⟨rfl, by decide⟩

/-- Claim C6 as amended: if any configured entity has a domain outside
{lock, switch, cover}, startup fails fatally (the error propagates out of
`main` and the process exits with code 1), but the error is surfaced only
during the per-entity discovery phase, after the broker connection is
established — the `connect` operation is always in the trace that precedes
the error. -/
theorem startup_unknown_domain_amended (deviceId haDiscovery : String)
    (qos : Nat) (monitor : Nat → Bool) (entities : List Entity)
    (h : ∃ e ∈ entities, ¬ knownDomain e.domain) :
    (startup deviceId haDiscovery qos monitor entities).2.isSome = true ∧
    StartupEvent.connect ∈
      (startup deviceId haDiscovery qos monitor entities).1 := by
  have herr := initEntities_error_of_unknown deviceId haDiscovery qos monitor
    entities h
  unfold startup
  cases hini : (initEntities deviceId haDiscovery qos monitor entities).2 with
  | none => rw [hini] at herr; exact absurd herr (by simp)
  | some msg => simp [hini]

/-- Witness for the amended C6 at a concrete configuration with an unknown
domain. -/
theorem startup_unknown_domain_amended_witness :
    (startup "dev" "homeassistant" 1 (fun _ => false)
      [⟨"door", "Door", "lock", 5, 6⟩, ⟨"fan1", "Fan", "fan", 7, 8⟩]).2.isSome
      = true ∧
    StartupEvent.connect ∈
      (startup "dev" "homeassistant" 1 (fun _ => false)
        [⟨"door", "Door", "lock", 5, 6⟩, ⟨"fan1", "Fan", "fan", 7, 8⟩]).1 :=
  startup_unknown_domain_amended "dev" "homeassistant" 1 (fun _ => false)
    [⟨"door", "Door", "lock", 5, 6⟩, ⟨"fan1", "Fan", "fan", 7, 8⟩]
    ⟨⟨"fan1", "Fan", "fan", 7, 8⟩, by decide, by decide⟩

/-- Observable shutdown operations of `shutdownHandler` (src/index.ts
lines 189-197), in program order: `clearTimer` is `clearInterval`
(line 191), `publish` is one `client.publishAsync` of the offline value
(lines 176-181 via line 192), `brokerEnd` is `client.endAsync` (line 193),
`awaitBindings` is the `await Promise.all(Array.from(jemas.values()))` of
line 195 (it awaits the stored binding objects; no release call exists),
and `exitZero` is `process.exit(0)` (line 196). -/
inductive ShutdownEvent where
  | clearTimer
  | publish (topic payload : String)
  | brokerEnd
  | awaitBindings
  | exitZero
deriving DecidableEq, Repr

/-- `publishAvailability` (src/index.ts lines 176-181): a `Promise.all`
over one availability publish per entity.  All publishes are initiated; the
combined promise rejects with the first failing entity's error, modelled by
`pubErr` as a function of the availability topic. -/
def publishAvailability (entities : List Entity)
    (pubErr : String → Option String) (value : String) :
    List ShutdownEvent × Option String :=
  (entities.map (fun e =>
      ShutdownEvent.publish (getTopic e TopicType.AVAILABILITY) value),
    (entities.filterMap (fun e =>
      pubErr (getTopic e TopicType.AVAILABILITY))).head?)

/-- `shutdownHandler` (src/index.ts lines 189-197): cancel the heartbeat,
publish `offline` to every availability topic, end the broker client, await
the stored bindings, and exit with code 0.  The handler body contains no
try/catch, so a rejected `await` aborts the function: the remaining steps
are not performed and the rejection is discarded unhandled by the `void` at
the call sites (lines 199-200). -/
def shutdownHandler (entities : List Entity)
    (pubErr : String → Option String) (endErr : Option String) :
    List ShutdownEvent × Option String :=
  let pa := publishAvailability entities pubErr "offline"
  match pa.2 with
  | some msg => (ShutdownEvent.clearTimer :: pa.1, some msg)
  | none =>
    match endErr with
    | some msg =>
      (ShutdownEvent.clearTimer :: pa.1 ++ [ShutdownEvent.brokerEnd],
        some msg)
    | none =>
      (ShutdownEvent.clearTimer :: pa.1
        ++ [ShutdownEvent.brokerEnd, ShutdownEvent.awaitBindings,
            ShutdownEvent.exitZero], none)

/-- Counterexample to claim C7 as stated: one entity, whose offline publish
fails with `EPIPE`.  The claim says a failure at any step does not prevent
the subsequent steps from running, but the broker-disconnect step
(`client.endAsync`) is not in the performed trace: the uncaught rejection of
`await publishAvailability("offline")` aborts `shutdownHandler` before it. -/
theorem shutdownHandler_failure_aborts_cex :
    (shutdownHandler [⟨"door", "Door", "lock", 5, 6⟩]
      (fun _ => some "EPIPE") none).2.isSome = true ∧
    ShutdownEvent.brokerEnd ∉
      (shutdownHandler [⟨"door", "Door", "lock", 5, 6⟩]
        (fun _ => some "EPIPE") none).1 := by
  exact ⟨rfl, by decide⟩

/-- Claim C7 as amended: the shutdown sequence performs heartbeat
cancellation, offline publication to every entity's availability topic,
broker disconnect, and the hardware-binding await, in that fixed order;
when every step succeeds, each runs exactly once and every entity's offline
publish precedes the broker disconnect; but a failure at a step is not
caught, so it prevents the subsequent steps from running — in particular a
failed offline publish means the broker disconnect is never reached. -/
theorem shutdownHandler_order_amended (entities : List Entity)
    (pubErr : String → Option String) (endErr : Option String) :
    ((entities.filterMap (fun e =>
        pubErr (getTopic e TopicType.AVAILABILITY))).head? = none →
      endErr = none →
      shutdownHandler entities pubErr endErr =
        (ShutdownEvent.clearTimer
          :: entities.map (fun e =>
              ShutdownEvent.publish (getTopic e TopicType.AVAILABILITY)
                "offline")
          ++ [ShutdownEvent.brokerEnd, ShutdownEvent.awaitBindings,
              ShutdownEvent.exitZero], none)) ∧
    (∀ msg, (entities.filterMap (fun e =>
        pubErr (getTopic e TopicType.AVAILABILITY))).head? = some msg →
      (shutdownHandler entities pubErr endErr).2 = some msg ∧
      ShutdownEvent.brokerEnd ∉ (shutdownHandler entities pubErr endErr).1) := by
  constructor
  · intro hpub hend
    subst hend
    unfold shutdownHandler publishAvailability
    simp [hpub]
  · intro msg hpub
    unfold shutdownHandler publishAvailability
    simp only [hpub]
    refine ⟨by simp, ?_⟩
    intro hmem
    rcases List.mem_cons.mp hmem with hc | hmap
    · exact ShutdownEvent.noConfusion hc
    · rcases List.mem_map.mp hmap with ⟨e, _, he⟩
      exact ShutdownEvent.noConfusion he

/-- Witness for the amended C7: with every step succeeding, the full
fixed-order trace is produced, offline before broker end. -/
theorem shutdownHandler_order_amended_witness :
    shutdownHandler [⟨"door", "Door", "lock", 5, 6⟩]
      (fun _ => none) none =
      ([ShutdownEvent.clearTimer,
        ShutdownEvent.publish "jema2mqtt/door/availability" "offline",
        ShutdownEvent.brokerEnd, ShutdownEvent.awaitBindings,
        ShutdownEvent.exitZero], none) := by
  have h := (shutdownHandler_order_amended [⟨"door", "Door", "lock", 5, 6⟩]
    (fun _ => none) none).1 (by rfl) rfl
  rw [h]
  rfl

/-- The two termination signals (src/index.ts lines 199-200). -/
inductive Signal where
  | SIGINT
  | SIGTERM
deriving DecidableEq, Repr

/-- The registered signal handlers
`process.on("SIGINT", () => void shutdownHandler())` and
`process.on("SIGTERM", () => void shutdownHandler())` (src/index.ts
lines 199-200): each delivered signal invokes `shutdownHandler`
unconditionally — the program keeps no flag recording that a shutdown is
already in progress, and the handler closure checks nothing.  The state is
the count of shutdown-handler executions started so far. -/
def onTermSignal (startedRuns : Nat) (_s : Signal) : Nat :=
  startedRuns + 1

/-- Number of shutdown-handler executions started after a sequence of
termination signals delivered before the process has exited. -/
def shutdownRunsAfter (sigs : List Signal) : Nat :=
  sigs.foldl onTermSignal 0

/-- `foldl` over `onTermSignal` counts the signals. -/
theorem shutdownRunsAfter_foldl (sigs : List Signal) :
    ∀ n : Nat, sigs.foldl onTermSignal n = n + sigs.length := by
  induction sigs with
  | nil => intro n; simp
  | cons s rest ih =>
    intro n
    rw [List.foldl_cons, ih (onTermSignal n s)]
    simp [onTermSignal]
    omega

/-- Counterexample to claim C8 as stated: a SIGINT followed by a SIGTERM
delivered while the first shutdown is still in progress (before
`process.exit(0)` has run) starts two executions of the shutdown steps, not
one — there is no guard making the second signal a no-op. -/
theorem second_signal_not_noop_cex :
    shutdownRunsAfter [Signal.SIGINT, Signal.SIGTERM] = 2 ∧
    shutdownRunsAfter [Signal.SIGINT, Signal.SIGTERM] ≠ 1 := by
  exact ⟨rfl, by decide⟩

/-- Claim C8 as amended: every termination signal delivered before the
process exits starts one more execution of the shutdown sequence — the
handlers are unguarded, so a second signal while shutdown is in progress
starts a second execution rather than being a no-op. -/
theorem shutdownRuns_eq_signal_count (sigs : List Signal) :
    shutdownRunsAfter sigs = sigs.length := by
  rw [shutdownRunsAfter, shutdownRunsAfter_foldl sigs 0]
  omega

end Jema2Mqtt
